import Mathlib

/-!
Shallow embedding of the LS-8 emulator in `src/ls8/cpu.py`.

Machine words are modelled as `Nat` (memory and register cells always hold
values in `0..255`, enforced at each write as Python's `bytearray` does), and
`PC` as `Int` (a plain Python integer attribute, unbounded).  Every operation
that can raise a Python exception (bytearray index error, bytearray value
range error, `ZeroDivisionError`, a `KeyError` on the branch table, a
`TypeError` on handler arity, the explicit `Exception("Unsupported ALU
operation")`) is modelled in `Except String`; an uncaught exception aborts
`run`, so `.error` models the machine stopping with a fault.

The write-only scratch attributes `IR`, `MAR`, `MDR` of the source do not
influence any behaviour and are not part of the state.  `op_iret` assigns the
popped flags byte to a fresh attribute `self.flag` (not `self.FL`); that
attribute is modelled by the field `flag`.
-/

namespace LS8

/-- Opcode constants, cpu.py lines 6-33. -/
def ADD : Nat := 0xA0
def AND : Nat := 0xA8
def CALL : Nat := 0x50
def CMP : Nat := 0xA7
def HLT : Nat := 0x01
def IRET : Nat := 0x13
def JEQ : Nat := 0x55
def JGE : Nat := 0x5A
def JGT : Nat := 0x57
def JLE : Nat := 0x59
def JLT : Nat := 0x58
def JMP : Nat := 0x54
def JNE : Nat := 0x56
def LD : Nat := 0x83
def LDI : Nat := 0x82
def MOD : Nat := 0xA4
def MUL : Nat := 0xA2
def NOT : Nat := 0x69
def OR : Nat := 0xAA
def POP : Nat := 0x46
def PRN : Nat := 0x47
def PRA : Nat := 0x48
def PUSH : Nat := 0x45
def RET : Nat := 0x11
def SHL : Nat := 0xAC
def SHR : Nat := 0xAD
def ST : Nat := 0x84
def XOR : Nat := 0xAB

/-- The mutable state of `class CPU` (cpu.py lines 39-55) that influences
behaviour: `ram` (a 256-cell bytearray), `reg` (an 8-cell bytearray),
`PC` (a Python int), `FL`, the stray `flag` attribute created by `op_iret`,
and the `running` flag. -/
structure CPUState where
  ram : Nat → Nat
  reg : Nat → Nat
  PC : Int
  FL : Nat
  flag : Nat
  running : Bool

/-- Read `self.ram[addr]`: a bytearray read, `IndexError` out of range
(cpu.py `ram_read`, lines 88-91; `MAR`/`MDR` bookkeeping dropped). -/
def ram_read (s : CPUState) (addr : Int) : Except String Nat :=
  if 0 ≤ addr ∧ addr < 256 then .ok (s.ram addr.toNat) else .error "IndexError"

/-- Write `self.ram[addr] = v`: `IndexError` out of range, `ValueError` when
the value is not a byte (cpu.py `ram_write`, lines 93-96). -/
def ram_write (s : CPUState) (addr v : Int) : Except String CPUState :=
  if 0 ≤ addr ∧ addr < 256 then
    if 0 ≤ v ∧ v < 256 then
      .ok { s with ram := Function.update s.ram addr.toNat v.toNat }
    else .error "ValueError: byte must be in range(0, 256)"
  else .error "IndexError"

/-- Read `self.reg[i]` (an 8-cell bytearray). -/
def reg_read (s : CPUState) (i : Nat) : Except String Nat :=
  if i < 8 then .ok (s.reg i) else .error "IndexError"

/-- Write `self.reg[i] = v`. -/
def reg_write (s : CPUState) (i : Nat) (v : Int) : Except String CPUState :=
  if i < 8 then
    if 0 ≤ v ∧ v < 256 then
      .ok { s with reg := Function.update s.reg i v.toNat }
    else .error "ValueError: byte must be in range(0, 256)"
  else .error "IndexError"

/-- `CPU.alu` (cpu.py lines 182-211).  The `elif` chain is reproduced as
written in the source: its fourth test is `op == "ADD"` a second time (line
196), so the `AND` body on line 197 is dead code and the string `"AND"`
falls through to `raise Exception("Unsupported ALU operation")`.  Python's
`~x` is `-x - 1` and `%` by zero raises `ZeroDivisionError`. -/
def alu (s : CPUState) (op : String) (reg_a reg_b : Nat) : Except String CPUState :=
  if op = "ADD" then do
    let x ← reg_read s reg_a
    let y ← reg_read s reg_b
    reg_write s reg_a ((x : Int) + (y : Int))
  else if op = "MUL" then do
    let x ← reg_read s reg_a
    let y ← reg_read s reg_b
    reg_write s reg_a ((x : Int) * (y : Int))
  else if op = "CMP" then do
    let fl0 : Nat := 0x00
    let x ← reg_read s reg_a
    let y ← reg_read s reg_b
    let fl1 : Nat := if x = y then fl0 ||| 0b00000001 else fl0
    let fl2 : Nat := if x < y then fl1 ||| 0b00000100 else fl1
    let fl3 : Nat := if x > y then fl2 ||| 0b00000010 else fl2
    .ok { s with FL := fl3 }
  else if op = "ADD" then do
    let x ← reg_read s reg_a
    let y ← reg_read s reg_b
    reg_write s reg_a ((x &&& y : Nat) : Int)
  else if op = "OR" then do
    let x ← reg_read s reg_a
    let y ← reg_read s reg_b
    reg_write s reg_a ((x ||| y : Nat) : Int)
  else if op = "XOR" then do
    let x ← reg_read s reg_a
    let y ← reg_read s reg_b
    reg_write s reg_a ((x ^^^ y : Nat) : Int)
  else if op = "NOT" then do
    let x ← reg_read s reg_a
    reg_write s reg_a (-(x : Int) - 1)
  else if op = "SHL" then do
    let x ← reg_read s reg_a
    let y ← reg_read s reg_b
    reg_write s reg_a ((x <<< y : Nat) : Int)
  else if op = "SHR" then do
    let x ← reg_read s reg_a
    let y ← reg_read s reg_b
    reg_write s reg_a ((x >>> y : Nat) : Int)
  else if op = "MOD" then do
    let x ← reg_read s reg_a
    let y ← reg_read s reg_b
    if y = 0 then .error "ZeroDivisionError"
    else reg_write s reg_a ((x % y : Nat) : Int)
  else .error "Unsupported ALU operation"

/-- cpu.py lines 233-234. -/
def op_add (s : CPUState) (operand_a operand_b : Nat) : Except String CPUState :=
  alu s "ADD" operand_a operand_b

/-- cpu.py lines 236-237. -/
def op_and (s : CPUState) (operand_a operand_b : Nat) : Except String CPUState :=
  alu s "AND" operand_a operand_b

/-- cpu.py lines 239-242: `reg[7] -= 1; ram[reg[7]] = PC + 2; PC = reg[a]`. -/
def op_call (s : CPUState) (operand_a : Nat) : Except String CPUState := do
  let s ← reg_write s 7 ((s.reg 7 : Int) - 1)
  let s ← ram_write s (s.reg 7 : Int) (s.PC + 2)
  let v ← reg_read s operand_a
  .ok { s with PC := (v : Int) }

/-- cpu.py lines 244-245. -/
def op_cmp (s : CPUState) (operand_a operand_b : Nat) : Except String CPUState :=
  alu s "CMP" operand_a operand_b

/-- cpu.py lines 247-249 (the print is I/O only). -/
def op_hlt (s : CPUState) : Except String CPUState :=
  .ok { s with running := false }

/-- cpu.py lines 304-305: `reg[a] = b`. -/
def op_ldi (s : CPUState) (operand_a : Nat) (operand_b : Int) : Except String CPUState :=
  reg_write s operand_a operand_b

/-- cpu.py lines 319-321: `op_ldi(a, ram[reg[7]]); reg[7] += 1`. -/
def op_pop (s : CPUState) (operand_a : Nat) : Except String CPUState := do
  let v ← ram_read s (s.reg 7 : Int)
  let s ← op_ldi s operand_a (v : Int)
  reg_write s 7 ((s.reg 7 : Int) + 1)

/-- cpu.py lines 329-331: `reg[7] -= 1; ram[reg[7]] = reg[a]`. -/
def op_push (s : CPUState) (operand_a : Nat) : Except String CPUState := do
  let s ← reg_write s 7 ((s.reg 7 : Int) - 1)
  let v ← reg_read s operand_a
  ram_write s (s.reg 7 : Int) (v : Int)

/-- cpu.py lines 333-335: `PC = ram[reg[7]]; reg[7] += 1`. -/
def op_ret (s : CPUState) : Except String CPUState := do
  let v ← ram_read s (s.reg 7 : Int)
  let s := { s with PC := (v : Int) }
  reg_write s 7 ((s.reg 7 : Int) + 1)

/-- cpu.py lines 251-260: pop R6..R0 in that order, then assign the next
stack byte to the attribute `self.flag` (NOT to `self.FL` — the source
writes `self.flag`), then pop the PC. -/
def op_iret (s : CPUState) : Except String CPUState := do
  let s ← op_pop s 6
  let s ← op_pop s 5
  let s ← op_pop s 4
  let s ← op_pop s 3
  let s ← op_pop s 2
  let s ← op_pop s 1
  let s ← op_pop s 0
  let v ← ram_read s (s.reg 7 : Int)
  let s := { s with flag := v }
  let s ← reg_write s 7 ((s.reg 7 : Int) + 1)
  let v2 ← ram_read s (s.reg 7 : Int)
  let s := { s with PC := (v2 : Int) }
  reg_write s 7 ((s.reg 7 : Int) + 1)

/-- cpu.py lines 262-266: `if (FL & 0b1) == 1: PC = reg[a] else PC += 2`. -/
def op_jeq (s : CPUState) (operand_a : Nat) : Except String CPUState :=
  if s.FL &&& 0b00000001 = 1 then do
    let v ← reg_read s operand_a
    .ok { s with PC := (v : Int) }
  else .ok { s with PC := s.PC + 2 }

/-- cpu.py lines 268-272: the source tests `(FL & 0b11) == 1`. -/
def op_jge (s : CPUState) (operand_a : Nat) : Except String CPUState :=
  if s.FL &&& 0b00000011 = 1 then do
    let v ← reg_read s operand_a
    .ok { s with PC := (v : Int) }
  else .ok { s with PC := s.PC + 2 }

/-- cpu.py lines 274-278: `(FL >> 1 & 0b1) == 1`. -/
def op_jgt (s : CPUState) (operand_a : Nat) : Except String CPUState :=
  if (s.FL >>> 1) &&& 0b00000001 = 1 then do
    let v ← reg_read s operand_a
    .ok { s with PC := (v : Int) }
  else .ok { s with PC := s.PC + 2 }

/-- cpu.py lines 280-284: the source tests `(FL & 0b101) == 5`. -/
def op_jle (s : CPUState) (operand_a : Nat) : Except String CPUState :=
  if s.FL &&& 0b00000101 = 5 then do
    let v ← reg_read s operand_a
    .ok { s with PC := (v : Int) }
  else .ok { s with PC := s.PC + 2 }

/-- cpu.py lines 286-290: `(FL >> 2 & 0b1) == 1`. -/
def op_jlt (s : CPUState) (operand_a : Nat) : Except String CPUState :=
  if (s.FL >>> 2) &&& 0b00000001 = 1 then do
    let v ← reg_read s operand_a
    .ok { s with PC := (v : Int) }
  else .ok { s with PC := s.PC + 2 }

/-- cpu.py lines 292-293. -/
def op_jmp (s : CPUState) (operand_a : Nat) : Except String CPUState := do
  let v ← reg_read s operand_a
  .ok { s with PC := (v : Int) }

/-- cpu.py lines 295-299. -/
def op_jne (s : CPUState) (operand_a : Nat) : Except String CPUState :=
  if s.FL &&& 0b00000001 = 0 then do
    let v ← reg_read s operand_a
    .ok { s with PC := (v : Int) }
  else .ok { s with PC := s.PC + 2 }

/-- cpu.py lines 301-302: `reg[a] = ram[reg[b]]`. -/
def op_ld (s : CPUState) (operand_a operand_b : Nat) : Except String CPUState := do
  let i ← reg_read s operand_b
  let v ← ram_read s (i : Int)
  reg_write s operand_a (v : Int)

/-- cpu.py lines 307-308. -/
def op_mod (s : CPUState) (operand_a operand_b : Nat) : Except String CPUState :=
  alu s "MOD" operand_a operand_b

/-- cpu.py lines 310-311. -/
def op_mul (s : CPUState) (operand_a operand_b : Nat) : Except String CPUState :=
  alu s "MUL" operand_a operand_b

/-- cpu.py lines 313-314 (note: the handler takes TWO parameters). -/
def op_not (s : CPUState) (operand_a operand_b : Nat) : Except String CPUState :=
  alu s "NOT" operand_a operand_b

/-- cpu.py lines 316-317. -/
def op_or (s : CPUState) (operand_a operand_b : Nat) : Except String CPUState :=
  alu s "OR" operand_a operand_b

/-- cpu.py lines 323-324 (print only; the register read may still fail). -/
def op_pra (s : CPUState) (operand_a : Nat) : Except String CPUState := do
  let _ ← reg_read s operand_a
  .ok s

/-- cpu.py lines 326-327. -/
def op_prn (s : CPUState) (operand_a : Nat) : Except String CPUState := do
  let _ ← reg_read s operand_a
  .ok s

/-- cpu.py lines 337-338. -/
def op_shl (s : CPUState) (operand_a operand_b : Nat) : Except String CPUState :=
  alu s "SHL" operand_a operand_b

/-- cpu.py lines 340-341. -/
def op_shr (s : CPUState) (operand_a operand_b : Nat) : Except String CPUState :=
  alu s "SHR" operand_a operand_b

/-- cpu.py lines 343-344: `ram[reg[a]] = reg[b]`. -/
def op_st (s : CPUState) (operand_a operand_b : Nat) : Except String CPUState := do
  let i ← reg_read s operand_a
  let v ← reg_read s operand_b
  ram_write s (i : Int) (v : Int)

/-- cpu.py lines 346-347. -/
def op_xor (s : CPUState) (operand_a operand_b : Nat) : Except String CPUState :=
  alu s "XOR" operand_a operand_b

/-- A branch-table entry: a bound method of arity 0, 1 or 2 (the arity is the
method's parameter count in the source, visible in each handler above). -/
inductive Handler where
  | h0 : (CPUState → Except String CPUState) → Handler
  | h1 : (CPUState → Nat → Except String CPUState) → Handler
  | h2 : (CPUState → Nat → Nat → Except String CPUState) → Handler

/-- `self.branchtable` (cpu.py lines 57-86); a missing key is a `KeyError`. -/
def branchtable (ir : Nat) : Option Handler :=
  if ir = MUL then some (.h2 op_mul)
  else if ir = LDI then some (.h2 fun s a b => op_ldi s a (b : Int))
  else if ir = HLT then some (.h0 op_hlt)
  else if ir = PRN then some (.h1 op_prn)
  else if ir = POP then some (.h1 op_pop)
  else if ir = PUSH then some (.h1 op_push)
  else if ir = CALL then some (.h1 op_call)
  else if ir = RET then some (.h0 op_ret)
  else if ir = ADD then some (.h2 op_add)
  else if ir = ST then some (.h2 op_st)
  else if ir = JMP then some (.h1 op_jmp)
  else if ir = PRA then some (.h1 op_pra)
  else if ir = IRET then some (.h0 op_iret)
  else if ir = LD then some (.h2 op_ld)
  else if ir = CMP then some (.h2 op_cmp)
  else if ir = JEQ then some (.h1 op_jeq)
  else if ir = JGE then some (.h1 op_jge)
  else if ir = JGT then some (.h1 op_jgt)
  else if ir = JLE then some (.h1 op_jle)
  else if ir = JLT then some (.h1 op_jlt)
  else if ir = JNE then some (.h1 op_jne)
  else if ir = AND then some (.h2 op_and)
  else if ir = OR then some (.h2 op_or)
  else if ir = XOR then some (.h2 op_xor)
  else if ir = NOT then some (.h2 op_not)
  else if ir = SHL then some (.h2 op_shl)
  else if ir = SHR then some (.h2 op_shr)
  else if ir = MOD then some (.h2 op_mod)
  else none

/-- The dispatch of cpu.py lines 144-149: `operand_count = IR >> 6` selects
how many arguments the handler is called with (2, 1, or — for counts 0 and
3 — none); calling a handler with the wrong number of arguments is a Python
`TypeError`. -/
def dispatch (s : CPUState) (ir operand_a operand_b : Nat) : Except String CPUState :=
  match branchtable ir with
  | none => .error "KeyError"
  | some h =>
    if ir >>> 6 = 2 then
      match h with
      | .h2 f => f s operand_a operand_b
      | _ => .error "TypeError"
    else if ir >>> 6 = 1 then
      match h with
      | .h1 f => f s operand_a
      | _ => .error "TypeError"
    else
      match h with
      | .h0 f => f s
      | _ => .error "TypeError"

/-- The bit mask `int('1' * (7 - i) + '0' + '1' * i, 2)` of cpu.py lines
121-122: all ones except a zero at bit `i` (for `i < 8`). -/
def clearBitMask (i : Nat) : Nat := 255 - 2 ^ i

/-- Servicing of one interrupt `i`: the body of the `if interrupt_happened`
block, cpu.py lines 121-135.  Clears bit `i` of IS (R6), pushes PC then FL,
zeroes FL, pushes R0..R6 zeroing each in turn, and vectors through
`ram[0xF8 + i]`. -/
def serviceOne (s : CPUState) (i : Nat) : Except String CPUState := do
  let s ← reg_write s 6 ((s.reg 6 &&& clearBitMask i : Nat) : Int)
  let s ← reg_write s 7 ((s.reg 7 : Int) - 1)
  let s ← ram_write s (s.reg 7 : Int) s.PC
  let s ← reg_write s 7 ((s.reg 7 : Int) - 1)
  let s ← ram_write s (s.reg 7 : Int) (s.FL : Int)
  let s := { s with FL := 0 }
  let s ← op_push s 0
  let s ← reg_write s 0 0
  let s ← op_push s 1
  let s ← reg_write s 1 0
  let s ← op_push s 2
  let s ← reg_write s 2 0
  let s ← op_push s 3
  let s ← reg_write s 3 0
  let s ← op_push s 4
  let s ← reg_write s 4 0
  let s ← op_push s 5
  let s ← reg_write s 5 0
  let s ← op_push s 6
  let s ← reg_write s 6 0
  let v ← ram_read s ((0xF8 + i : Nat) : Int)
  .ok { s with PC := (v : Int) }

/-- One iteration of the `for i in range(8)` loop of cpu.py lines 118-135:
service interrupt `i` when bit `i` of the masked snapshot is set. -/
def checkInterrupt (s : CPUState) (masked i : Nat) : Except String CPUState :=
  if (masked >>> i) &&& 1 = 1 then serviceOne s i else .ok s

/-- The interrupt phase of one cycle, cpu.py lines 116-135:
`masked_interrupts = reg[5] & reg[6]` is computed ONCE, then the loop
runs over all eight bits of that snapshot. -/
def interruptPhase (s : CPUState) : Except String CPUState := do
  let masked := s.reg 5 &&& s.reg 6
  let s ← checkInterrupt s masked 0
  let s ← checkInterrupt s masked 1
  let s ← checkInterrupt s masked 2
  let s ← checkInterrupt s masked 3
  let s ← checkInterrupt s masked 4
  let s ← checkInterrupt s masked 5
  let s ← checkInterrupt s masked 6
  checkInterrupt s masked 7

/-- Fetch, decode, dispatch and conditional PC advance: cpu.py lines
137-152.  Three bytes are read, the handler is dispatched, and unless
bit 4 of the opcode is set the PC is advanced by `operand_count + 1`
(plain Python integer addition — no reduction modulo 256). -/
def fetchDispatch (s : CPUState) : Except String CPUState := do
  let ir ← ram_read s s.PC
  let operand_a ← ram_read s (s.PC + 1)
  let operand_b ← ram_read s (s.PC + 2)
  let operand_count := ir >>> 6
  let is_pc_setter := (ir >>> 4) &&& 0b00000001
  let s ← dispatch s ir operand_a operand_b
  if is_pc_setter = 0 then .ok { s with PC := s.PC + (operand_count : Int) + 1 }
  else .ok s

/-- One iteration of the `while self.running` loop of `CPU.run` (cpu.py
lines 100-152), except for the keyboard/timer sampling of lines 101-114,
which reads the wall clock and stdin (both external I/O): the claims treat
IM and IS as given at the top of the cycle. -/
def cycle (s : CPUState) : Except String CPUState := do
  let s ← interruptPhase s
  fetchDispatch s

/-! ### Helper lemmas about the monadic plumbing -/

theorem ok_bind {α β : Type} (a : α) (f : α → Except String β) :
    (Except.ok a >>= f) = f a := rfl

theorem bind_ok_iff {α β : Type} {x : Except String α} {f : α → Except String β} {b : β} :
    x >>= f = .ok b ↔ ∃ a, x = .ok a ∧ f a = .ok b := by
  cases x <;> simp [Bind.bind, Except.bind]

theorem reg_write_ok {s : CPUState} {i : Nat} {v : Int}
    (h1 : i < 8) (h2 : 0 ≤ v) (h3 : v < 256) :
    reg_write s i v = .ok { s with reg := Function.update s.reg i v.toNat } := by
  unfold reg_write
  rw [if_pos h1, if_pos ⟨h2, h3⟩]

theorem ram_write_ok {s : CPUState} {addr v : Int}
    (h1 : 0 ≤ addr) (h2 : addr < 256) (h3 : 0 ≤ v) (h4 : v < 256) :
    ram_write s addr v = .ok { s with ram := Function.update s.ram addr.toNat v.toNat } := by
  unfold ram_write
  rw [if_pos ⟨h1, h2⟩, if_pos ⟨h3, h4⟩]

theorem reg_read_ok {s : CPUState} {i : Nat} (h : i < 8) :
    reg_read s i = .ok (s.reg i) := by
  unfold reg_read
  rw [if_pos h]

theorem ram_read_ok {s : CPUState} {addr : Int} (h1 : 0 ≤ addr) (h2 : addr < 256) :
    ram_read s addr = .ok (s.ram addr.toNat) := by
  unfold ram_read
  rw [if_pos ⟨h1, h2⟩]

theorem reg_write_inv {s : CPUState} {i : Nat} {v : Int} {t : CPUState}
    (h : reg_write s i v = .ok t) :
    i < 8 ∧ 0 ≤ v ∧ v < 256 ∧ t = { s with reg := Function.update s.reg i v.toNat } := by
  unfold reg_write at h
  split_ifs at h with h1 h2
  · exact ⟨h1, h2.1, h2.2, (Except.ok.inj h).symm⟩

theorem ram_write_inv {s : CPUState} {addr v : Int} {t : CPUState}
    (h : ram_write s addr v = .ok t) :
    0 ≤ addr ∧ addr < 256 ∧ 0 ≤ v ∧ v < 256 ∧
      t = { s with ram := Function.update s.ram addr.toNat v.toNat } := by
  unfold ram_write at h
  split_ifs at h with h1 h2
  · exact ⟨h1.1, h1.2, h2.1, h2.2, (Except.ok.inj h).symm⟩

theorem reg_read_inv {s : CPUState} {i : Nat} {v : Nat}
    (h : reg_read s i = .ok v) : i < 8 ∧ v = s.reg i := by
  unfold reg_read at h
  split_ifs at h with h1
  · exact ⟨h1, (Except.ok.inj h).symm⟩

theorem ram_read_inv {s : CPUState} {addr : Int} {v : Nat}
    (h : ram_read s addr = .ok v) : 0 ≤ addr ∧ addr < 256 ∧ v = s.ram addr.toNat := by
  unfold ram_read at h
  split_ifs at h with h1
  · exact ⟨h1.1, h1.2, (Except.ok.inj h).symm⟩

/-! ### Concrete machine states used as inputs for the bug theorems -/

/-- A state about to take interrupt 0: `FL = 1`, `PC = 10`, handler vector at
`0xF8` points to `0x40`, `R0..R4 = 11,22,33,44,55`, `IM = IS = 1`, `SP = 0xF4`. -/
def c1pre : CPUState where
  ram := fun a => if a = 0xF8 then 0x40 else 0
  reg := fun i =>
    if i = 0 then 11 else if i = 1 then 22 else if i = 2 then 33
    else if i = 3 then 44 else if i = 4 then 55 else if i = 5 then 1
    else if i = 6 then 1 else if i = 7 then 0xF4 else 0
  PC := 10
  FL := 1
  flag := 0
  running := true

/-- A state with two pending interrupts: `IM = IS = 0b11`, vectors
`[0xF8] = 0x10` and `[0xF9] = 0x20`, `PC = 5`, `SP = 0xF4`. -/
def c2pre : CPUState where
  ram := fun a => if a = 0xF8 then 0x10 else if a = 0xF9 then 0x20 else 0
  reg := fun i => if i = 5 then 3 else if i = 6 then 3 else if i = 7 then 0xF4 else 0
  PC := 5
  FL := 0
  flag := 0
  running := true

/-- A state with `R0 = 200`, `R1 = 100`, `SP = 0xF4`. -/
def c3pre : CPUState where
  ram := fun _ => 0
  reg := fun i => if i = 0 then 200 else if i = 1 then 100 else if i = 7 then 0xF4 else 0
  PC := 0
  FL := 0
  flag := 0
  running := true

/-- A state with only the G flag set (`FL = 0b010`), `R0 = 0x30`, `PC = 10`. -/
def c4preG : CPUState where
  ram := fun _ => 0
  reg := fun i => if i = 0 then 0x30 else if i = 7 then 0xF4 else 0
  PC := 10
  FL := 2
  flag := 0
  running := true

/-- A state with only the L flag set (`FL = 0b100`), `R0 = 0x30`, `PC = 10`. -/
def c4preL : CPUState := { c4preG with FL := 4 }

/-- A state whose next instruction is `LDI R0,0` stored at address 253, the
highest address from which a two-operand instruction can still be fetched;
no pending interrupts. -/
def c5pre : CPUState where
  ram := fun a => if a = 253 then 0x82 else 0
  reg := fun i => if i = 7 then 0xF4 else 0
  PC := 253
  FL := 0
  flag := 0
  running := true

/-! ### Claim theorems -/

/-- C1.  The interrupt round-trip does NOT restore FL.  Starting from
`c1pre` (`FL = 1`), servicing interrupt 0 and then executing `IRET` with a
handler that modifies nothing in between returns with `PC`, `R0..R5` and
`SP` restored — but `FL = 0`: `op_iret` (cpu.py line 255) assigns the
popped flags byte to the fresh attribute `self.flag` instead of `self.FL`.
The popped value 1 is visible in the `flag` field.  (`R6`, the IS register,
comes back with the serviced bit cleared rather than its pre-interrupt
value 1.) -/
theorem C1_iret_does_not_restore_FL :
    ∃ s1 s2, serviceOne c1pre 0 = .ok s1 ∧ op_iret s1 = .ok s2 ∧
      s2.PC = c1pre.PC ∧
      s2.reg 0 = c1pre.reg 0 ∧ s2.reg 1 = c1pre.reg 1 ∧ s2.reg 2 = c1pre.reg 2 ∧
      s2.reg 3 = c1pre.reg 3 ∧ s2.reg 4 = c1pre.reg 4 ∧ s2.reg 5 = c1pre.reg 5 ∧
      s2.reg 7 = c1pre.reg 7 ∧
      c1pre.FL = 1 ∧ s2.FL = 0 ∧ s2.flag = 1 ∧
      c1pre.reg 6 = 1 ∧ s2.reg 6 = 0 :=
  ⟨_, _, rfl, rfl, rfl, rfl, rfl, rfl, rfl, rfl, rfl, rfl, rfl, rfl, rfl, rfl, rfl⟩

/-- C2.  With `pending = IM & IS = 0b11`, a single pass of the interrupt
phase services BOTH interrupts back to back: interrupt 0 vectors to
`0x10`, then — with no `IRET` in between and while inside ISR 0 — interrupt
1 is serviced as well, pushing `0x10` (the first handler's address) as the
interrupted PC at `0xEA` and leaving `PC = 0x20`, both IS bits cleared and
the SP lowered by two full 9-byte frames.  There is no in-ISR latch in the
source. -/
theorem C2_two_interrupts_serviced_in_one_pass :
    ∃ t, interruptPhase c2pre = .ok t ∧
      c2pre.reg 5 &&& c2pre.reg 6 = 3 ∧
      t.PC = 0x20 ∧ t.ram 0xEA = 0x10 ∧ t.ram 0xF3 = 5 ∧
      t.reg 6 = 0 ∧ t.reg 7 = 0xE2 :=
  ⟨_, rfl, rfl, rfl, rfl, rfl, rfl, rfl⟩

/-- C3.  Arithmetic is NOT reduced modulo 256: the ALU writes the raw
Python integer result back into the `bytearray`, so any result outside
`0..255` raises `ValueError` and the machine dies, instead of storing the
result mod 256.  With `R0 = 200`, `R1 = 100`: ADD (300), MUL (20000) and
SHL fail, and NOT fails on every input (`~x` is negative). -/
theorem C3_arithmetic_overflow_raises :
    c3pre.reg 0 = 200 ∧ c3pre.reg 1 = 100 ∧
    alu c3pre "ADD" 0 1 = .error "ValueError: byte must be in range(0, 256)" ∧
    alu c3pre "MUL" 0 1 = .error "ValueError: byte must be in range(0, 256)" ∧
    alu c3pre "SHL" 0 1 = .error "ValueError: byte must be in range(0, 256)" ∧
    alu c3pre "NOT" 0 1 = .error "ValueError: byte must be in range(0, 256)" :=
  ⟨rfl, rfl, rfl, rfl, rfl, rfl⟩

/-- C4.  The JGE/JLE flag tests do not implement "G or E" / "L or E".
With only G set (`FL = 0b010`) JGE falls through to `PC + 2` instead of
jumping to `R0 = 0x30` (the source tests `FL & 0b11 == 1`), and with only
L set (`FL = 0b100`) JLE falls through as well (the source tests
`FL & 0b101 == 5`, i.e. requires L AND E). -/
theorem C4_jge_jle_flag_tests_wrong :
    ∃ s1 s2, op_jge c4preG 0 = .ok s1 ∧ op_jle c4preL 0 = .ok s2 ∧
      c4preG.FL = 2 ∧ c4preG.reg 0 = 0x30 ∧ s1.PC = 12 ∧
      c4preL.FL = 4 ∧ c4preL.reg 0 = 0x30 ∧ s2.PC = 12 :=
  ⟨_, _, rfl, rfl, rfl, rfl, rfl, rfl, rfl, rfl⟩

/-- C5, counterexample.  The PC advance is plain integer addition, not
addition modulo 256: executing the two-operand, non-PC-setting `LDI` at
address 253 leaves `PC = 256`, not `(253 + 2 + 1) % 256 = 0`. -/
theorem C5_counterexample :
    ∃ t, cycle c5pre = .ok t ∧ c5pre.ram 253 = LDI ∧ (LDI >>> 4) &&& 1 = 0 ∧
      t.PC = 256 ∧ ¬ t.PC = (c5pre.PC + ((LDI >>> 6 : Nat) : Int) + 1) % 256 :=
  ⟨_, rfl, rfl, rfl, rfl, by decide⟩

/-- C7.  Executing AND always fails: the ALU's `elif` chain tests
`op == "ADD"` twice (cpu.py line 196), so the string `"AND"` reaches the
final `raise Exception("Unsupported ALU operation")` instead of storing
`Ra & Rb`; dispatching the AND opcode `0xA8` hits the same error. -/
theorem C7_and_raises (s : CPUState) (a b : Nat) :
    op_and s a b = .error "Unsupported ALU operation" ∧
    dispatch s AND a b = .error "Unsupported ALU operation" :=
  ⟨rfl, rfl⟩

/-- C6.  A successful CMP resets FL and then sets exactly one of E (bit 0,
value 1), G (bit 1, value 2), L (bit 2, value 4): the resulting FL is
exactly 1, 4 or 2 according to the trichotomy `Ra = Rb`, `Ra < Rb`,
`Ra > Rb`, so exactly one flag is set and all other bits are clear. -/
theorem C6_cmp_exactly_one_flag (s : CPUState) (a b : Nat) (t : CPUState)
    (h : alu s "CMP" a b = .ok t) :
    t.FL = (if s.reg a = s.reg b then 1 else if s.reg a < s.reg b then 4 else 2) ∧
    (t.FL = 1 ∨ t.FL = 2 ∨ t.FL = 4) := by
  replace h : (do
      let fl0 : Nat := 0x00
      let x ← reg_read s a
      let y ← reg_read s b
      let fl1 : Nat := if x = y then fl0 ||| 0b00000001 else fl0
      let fl2 : Nat := if x < y then fl1 ||| 0b00000100 else fl1
      let fl3 : Nat := if x > y then fl2 ||| 0b00000010 else fl2
      (.ok { s with FL := fl3 } : Except String CPUState)) = .ok t := h
  simp only [bind_ok_iff] at h
  obtain ⟨x, hx, y, hy, h⟩ := h
  obtain ⟨-, rfl⟩ := reg_read_inv hx
  obtain ⟨-, rfl⟩ := reg_read_inv hy
  obtain rfl : _ = t := Except.ok.inj h
  rcases lt_trichotomy (s.reg a) (s.reg b) with hlt | heq | hgt
  · have hne : ¬ s.reg a = s.reg b := Nat.ne_of_lt hlt
    have hng : ¬ s.reg a > s.reg b := Nat.lt_asymm hlt
    simp [hne, hlt, hng]
  · simp [heq, Nat.lt_irrefl]
  · have hne : ¬ s.reg a = s.reg b := (Nat.ne_of_lt hgt).symm
    have hnl : ¬ s.reg a < s.reg b := Nat.lt_asymm hgt
    simp [hne, hnl, hgt]

/-- C6 witness: CMP on `c3pre` (`R0 = 200 > R1 = 100`) sets exactly the G
flag. -/
theorem C6_witness :
    ({ c3pre with FL := 2 } : CPUState).FL =
      (if c3pre.reg 0 = c3pre.reg 1 then 1 else if c3pre.reg 0 < c3pre.reg 1 then 4 else 2) ∧
    (({ c3pre with FL := 2 } : CPUState).FL = 1 ∨
      ({ c3pre with FL := 2 } : CPUState).FL = 2 ∨
      ({ c3pre with FL := 2 } : CPUState).FL = 4) :=
  C6_cmp_exactly_one_flag c3pre 0 1 { c3pre with FL := 2 } rfl

/-! ### PC preservation by non-PC-setting handlers -/

set_option maxHeartbeats 1000000 in
theorem alu_preserves_PC {s : CPUState} {op : String} {a b : Nat} {t : CPUState}
    (h : alu s op a b = .ok t) : t.PC = s.PC := by
  unfold alu at h
  split_ifs at h with hADD hMUL hCMP hOR hXOR hNOT hSHL hSHR hMOD
  · simp only [bind_ok_iff] at h
    obtain ⟨x, -, y, -, hw⟩ := h
    obtain ⟨-, -, -, rfl⟩ := reg_write_inv hw
    rfl
  · simp only [bind_ok_iff] at h
    obtain ⟨x, -, y, -, hw⟩ := h
    obtain ⟨-, -, -, rfl⟩ := reg_write_inv hw
    rfl
  · simp only [bind_ok_iff] at h
    obtain ⟨x, -, y, -, hw⟩ := h
    obtain rfl : _ = t := Except.ok.inj hw
    rfl
  · simp only [bind_ok_iff] at h
    obtain ⟨x, -, y, -, hw⟩ := h
    obtain ⟨-, -, -, rfl⟩ := reg_write_inv hw
    rfl
  · simp only [bind_ok_iff] at h
    obtain ⟨x, -, y, -, hw⟩ := h
    obtain ⟨-, -, -, rfl⟩ := reg_write_inv hw
    rfl
  · simp only [bind_ok_iff] at h
    obtain ⟨x, -, hw⟩ := h
    obtain ⟨-, -, -, rfl⟩ := reg_write_inv hw
    rfl
  · simp only [bind_ok_iff] at h
    obtain ⟨x, -, y, -, hw⟩ := h
    obtain ⟨-, -, -, rfl⟩ := reg_write_inv hw
    rfl
  · simp only [bind_ok_iff] at h
    obtain ⟨x, -, y, -, hw⟩ := h
    obtain ⟨-, -, -, rfl⟩ := reg_write_inv hw
    rfl
  · simp only [bind_ok_iff] at h
    obtain ⟨x, -, y, -, hw⟩ := h
    split_ifs at hw
    obtain ⟨-, -, -, rfl⟩ := reg_write_inv hw
    rfl

theorem op_ldi_preserves_PC {s : CPUState} {a : Nat} {v : Int} {t : CPUState}
    (h : op_ldi s a v = .ok t) : t.PC = s.PC := by
  obtain ⟨-, -, -, rfl⟩ := reg_write_inv h
  rfl

theorem op_pop_preserves_PC {s : CPUState} {a : Nat} {t : CPUState}
    (h : op_pop s a = .ok t) : t.PC = s.PC := by
  unfold op_pop at h
  simp only [bind_ok_iff] at h
  obtain ⟨v, -, s1, h1, hw⟩ := h
  obtain ⟨-, -, -, rfl⟩ := reg_write_inv (show reg_write s a (v : Int) = .ok s1 from h1)
  obtain ⟨-, -, -, rfl⟩ := reg_write_inv hw
  rfl

theorem op_push_preserves_PC {s : CPUState} {a : Nat} {t : CPUState}
    (h : op_push s a = .ok t) : t.PC = s.PC := by
  unfold op_push at h
  simp only [bind_ok_iff] at h
  obtain ⟨s1, h1, v, -, hw⟩ := h
  obtain ⟨-, -, -, rfl⟩ := reg_write_inv h1
  obtain ⟨-, -, -, -, rfl⟩ := ram_write_inv hw
  rfl

theorem op_hlt_preserves_PC {s t : CPUState} (h : op_hlt s = .ok t) : t.PC = s.PC := by
  obtain rfl : _ = t := Except.ok.inj h
  rfl

theorem op_prn_preserves_PC {s : CPUState} {a : Nat} {t : CPUState}
    (h : op_prn s a = .ok t) : t.PC = s.PC := by
  unfold op_prn at h
  simp only [bind_ok_iff] at h
  obtain ⟨v, -, hw⟩ := h
  obtain rfl : _ = t := Except.ok.inj hw
  rfl

theorem op_pra_preserves_PC {s : CPUState} {a : Nat} {t : CPUState}
    (h : op_pra s a = .ok t) : t.PC = s.PC := by
  unfold op_pra at h
  simp only [bind_ok_iff] at h
  obtain ⟨v, -, hw⟩ := h
  obtain rfl : _ = t := Except.ok.inj hw
  rfl

theorem op_ld_preserves_PC {s : CPUState} {a b : Nat} {t : CPUState}
    (h : op_ld s a b = .ok t) : t.PC = s.PC := by
  unfold op_ld at h
  simp only [bind_ok_iff] at h
  obtain ⟨i, -, v, -, hw⟩ := h
  obtain ⟨-, -, -, rfl⟩ := reg_write_inv hw
  rfl

theorem op_st_preserves_PC {s : CPUState} {a b : Nat} {t : CPUState}
    (h : op_st s a b = .ok t) : t.PC = s.PC := by
  unfold op_st at h
  simp only [bind_ok_iff] at h
  obtain ⟨i, -, v, -, hw⟩ := h
  obtain ⟨-, -, -, -, rfl⟩ := ram_write_inv hw
  rfl

/-- Handlers of opcodes whose bit 4 is clear never change the PC. -/
theorem dispatch_preserves_PC {s : CPUState} {ir a b : Nat} {t : CPUState}
    (hbit : (ir >>> 4) &&& 1 = 0) (h : dispatch s ir a b = .ok t) : t.PC = s.PC := by
  by_cases e1 : ir = MUL
  · subst e1
    exact alu_preserves_PC (show alu s "MUL" a b = .ok t from h)
  by_cases e2 : ir = LDI
  · subst e2
    exact op_ldi_preserves_PC (show op_ldi s a (b : Int) = .ok t from h)
  by_cases e3 : ir = HLT
  · subst e3
    exact op_hlt_preserves_PC (show op_hlt s = .ok t from h)
  by_cases e4 : ir = PRN
  · subst e4
    exact op_prn_preserves_PC (show op_prn s a = .ok t from h)
  by_cases e5 : ir = POP
  · subst e5
    exact op_pop_preserves_PC (show op_pop s a = .ok t from h)
  by_cases e6 : ir = PUSH
  · subst e6
    exact op_push_preserves_PC (show op_push s a = .ok t from h)
  by_cases e7 : ir = CALL
  · subst e7
    exact absurd hbit (by decide)
  by_cases e8 : ir = RET
  · subst e8
    exact absurd hbit (by decide)
  by_cases e9 : ir = ADD
  · subst e9
    exact alu_preserves_PC (show alu s "ADD" a b = .ok t from h)
  by_cases e10 : ir = ST
  · subst e10
    exact op_st_preserves_PC (show op_st s a b = .ok t from h)
  by_cases e11 : ir = JMP
  · subst e11
    exact absurd hbit (by decide)
  by_cases e12 : ir = PRA
  · subst e12
    exact op_pra_preserves_PC (show op_pra s a = .ok t from h)
  by_cases e13 : ir = IRET
  · subst e13
    exact absurd hbit (by decide)
  by_cases e14 : ir = LD
  · subst e14
    exact op_ld_preserves_PC (show op_ld s a b = .ok t from h)
  by_cases e15 : ir = CMP
  · subst e15
    exact alu_preserves_PC (show alu s "CMP" a b = .ok t from h)
  by_cases e16 : ir = JEQ
  · subst e16
    exact absurd hbit (by decide)
  by_cases e17 : ir = JGE
  · subst e17
    exact absurd hbit (by decide)
  by_cases e18 : ir = JGT
  · subst e18
    exact absurd hbit (by decide)
  by_cases e19 : ir = JLE
  · subst e19
    exact absurd hbit (by decide)
  by_cases e20 : ir = JLT
  · subst e20
    exact absurd hbit (by decide)
  by_cases e21 : ir = JNE
  · subst e21
    exact absurd hbit (by decide)
  by_cases e22 : ir = AND
  · subst e22
    exact alu_preserves_PC (show alu s "AND" a b = .ok t from h)
  by_cases e23 : ir = OR
  · subst e23
    exact alu_preserves_PC (show alu s "OR" a b = .ok t from h)
  by_cases e24 : ir = XOR
  · subst e24
    exact alu_preserves_PC (show alu s "XOR" a b = .ok t from h)
  by_cases e25 : ir = NOT
  · subst e25
    exact Except.noConfusion (show (Except.error "TypeError" : Except String CPUState) = .ok t from h)
  by_cases e26 : ir = SHL
  · subst e26
    exact alu_preserves_PC (show alu s "SHL" a b = .ok t from h)
  by_cases e27 : ir = SHR
  · subst e27
    exact alu_preserves_PC (show alu s "SHR" a b = .ok t from h)
  by_cases e28 : ir = MOD
  · subst e28
    exact alu_preserves_PC (show alu s "MOD" a b = .ok t from h)
  have hbt : branchtable ir = none := by
    unfold branchtable
    rw [if_neg e1, if_neg e2, if_neg e3, if_neg e4, if_neg e5, if_neg e6, if_neg e7,
      if_neg e8, if_neg e9, if_neg e10, if_neg e11, if_neg e12, if_neg e13, if_neg e14,
      if_neg e15, if_neg e16, if_neg e17, if_neg e18, if_neg e19, if_neg e20, if_neg e21,
      if_neg e22, if_neg e23, if_neg e24, if_neg e25, if_neg e26, if_neg e27, if_neg e28]
  unfold dispatch at h
  rw [hbt] at h
  exact Except.noConfusion (show (Except.error "KeyError" : Except String CPUState) = .ok t from h)

/-- C5, amended.  After a successful fetch-dispatch step, either the fetched
opcode has its sets-PC bit (bit 4) set — and PC is whatever the handler set —
or the new PC equals the old PC plus `operand_count + 1` as a plain integer
sum (without reduction modulo 256). -/
theorem C5_pc_advance (s t : CPUState) (h : fetchDispatch s = .ok t) :
    ((s.ram s.PC.toNat >>> 4) &&& 1 = 1) ∨
      t.PC = s.PC + ((s.ram s.PC.toNat >>> 6 : Nat) : Int) + 1 := by
  unfold fetchDispatch at h
  simp only [bind_ok_iff] at h
  obtain ⟨ir, hir, oa, -, ob, -, u, hd, h⟩ := h
  obtain ⟨-, -, rfl⟩ := ram_read_inv hir
  by_cases hbit : (s.ram s.PC.toNat >>> 4) &&& 0b00000001 = 0
  · right
    rw [if_pos hbit] at h
    obtain rfl : _ = t := Except.ok.inj h
    have hu := dispatch_preserves_PC hbit hd
    show u.PC + _ + 1 = _
    rw [hu]
  · left
    rw [Nat.and_one_is_mod] at hbit ⊢
    omega

/-- A state whose next instruction is `LDI R0,8` at address 0. -/
def c5w : CPUState where
  ram := fun a => if a = 0 then 0x82 else if a = 2 then 8 else 0
  reg := fun i => if i = 7 then 0xF4 else 0
  PC := 0
  FL := 0
  flag := 0
  running := true

/-- The state after one fetch-dispatch step from `c5w`. -/
def c5wRes : CPUState :=
  { c5w with reg := Function.update c5w.reg 0 8, PC := 3 }

/-- C5 witness: running the concrete `LDI R0,8` step satisfies the amended
PC-advance invariant. -/
theorem C5_witness :
    ((c5w.ram c5w.PC.toNat >>> 4) &&& 1 = 1) ∨
      c5wRes.PC = c5w.PC + ((c5w.ram c5w.PC.toNat >>> 6 : Nat) : Int) + 1 :=
  C5_pc_advance c5w c5wRes rfl

/-- C8.  CALL/RET round trip.  If `CALL Ra` succeeds from `s0` (pushing
`PC+2` and jumping to `Ra`), and the callee finishes in a state `s2` that
preserves the SP and the stack cell holding the return address, then `RET`
succeeds and restores `PC = s0.PC + 2` and `SP = s0.reg 7`. -/
theorem C8_call_ret_roundtrip (s0 : CPUState) (a : Nat) (s1 s2 : CPUState)
    (hsp : s0.reg 7 < 256)
    (hcall : op_call s0 a = .ok s1)
    (hs2sp : s2.reg 7 = s1.reg 7)
    (hs2slot : s2.ram (s1.reg 7) = s1.ram (s1.reg 7)) :
    ∃ s3, op_ret s2 = .ok s3 ∧ s3.PC = s0.PC + 2 ∧ s3.reg 7 = s0.reg 7 := by
  unfold op_call at hcall
  simp only [bind_ok_iff] at hcall
  obtain ⟨sA, hA, sB, hB, v, hv, hfin⟩ := hcall
  obtain ⟨-, hge1, -, rfl⟩ := reg_write_inv hA
  obtain ⟨-, -, hpc0, hpc1, rfl⟩ := ram_write_inv hB
  obtain ⟨-, rfl⟩ := reg_read_inv hv
  obtain rfl : _ = s1 := Except.ok.inj hfin
  replace hpc0 : (0 : Int) ≤ s0.PC + 2 := hpc0
  replace hpc1 : s0.PC + 2 < 256 := hpc1
  have hsp1 : s2.reg 7 = ((s0.reg 7 : Int) - 1).toNat := by
    simpa using hs2sp
  have hslot : s2.ram (((s0.reg 7 : Int) - 1).toNat) = (s0.PC + 2).toNat := by
    simpa using hs2slot
  have hsp1lt : s2.reg 7 < 256 := by omega
  unfold op_ret
  rw [ram_read_ok (by exact_mod_cast Nat.zero_le _) (by exact_mod_cast hsp1lt), ok_bind]
  rw [@reg_write_ok _ 7 _ (by omega)
    (show (0 : Int) ≤ (s2.reg 7 : Int) + 1 by omega)
    (show (s2.reg 7 : Int) + 1 < 256 by omega)]
  refine ⟨_, rfl, ?_, ?_⟩
  · show ((s2.ram ((s2.reg 7 : Int)).toNat : Nat) : Int) = s0.PC + 2
    rw [show ((s2.reg 7 : Int)).toNat = s2.reg 7 from rfl, hsp1, hslot]
    omega
  · show Function.update s2.reg 7 (((s2.reg 7 : Int) + 1).toNat) 7 = s0.reg 7
    rw [Function.update_same]
    omega

/-- A state about to `CALL R0` with `R0 = 0x30`, `PC = 0x10`, `SP = 0xF4`. -/
def c8pre : CPUState where
  ram := fun _ => 0
  reg := fun i => if i = 0 then 0x30 else if i = 7 then 0xF4 else 0
  PC := 0x10
  FL := 0
  flag := 0
  running := true

/-- The state right after `CALL R0` from `c8pre`: SP lowered to `0xF3`, the
return address `0x12` stored there, `PC = 0x30`. -/
def c8mid : CPUState :=
  { c8pre with reg := Function.update c8pre.reg 7 0xF3,
               ram := Function.update c8pre.ram 0xF3 0x12,
               PC := 0x30 }

/-- C8 witness: from `c8pre`, `CALL R0` followed by an empty callee and
`RET` comes back to `PC = 0x12` with `SP = 0xF4`. -/
theorem C8_witness :
    ∃ s3, op_ret c8mid = .ok s3 ∧ s3.PC = c8pre.PC + 2 ∧ s3.reg 7 = c8pre.reg 7 :=
  C8_call_ret_roundtrip c8pre 0 c8mid c8mid (by decide) rfl rfl rfl

/-- C9.  MOD semantics: when `Rb = 0` the ALU raises `ZeroDivisionError`
(an uncaught exception, so `run` dies: the machine stops with a fault);
when `Rb ≠ 0` it stores `Ra % Rb` into `Ra` and the running flag — hence
the machine's ability to continue — is untouched. -/
theorem C9_mod_semantics (s : CPUState) (a b x y : Nat)
    (hx : reg_read s a = .ok x) (hy : reg_read s b = .ok y) (hy256 : y < 256) :
    (y = 0 → alu s "MOD" a b = .error "ZeroDivisionError") ∧
    (y ≠ 0 → alu s "MOD" a b =
        .ok { s with reg := Function.update s.reg a (x % y) } ∧
      ({ s with reg := Function.update s.reg a (x % y) } : CPUState).running = s.running) := by
  obtain ⟨ha8, rfl⟩ := reg_read_inv hx
  obtain ⟨hb8, rfl⟩ := reg_read_inv hy
  have halu : alu s "MOD" a b = (do
      let x ← reg_read s a
      let y ← reg_read s b
      if y = 0 then .error "ZeroDivisionError"
      else reg_write s a ((x % y : Nat) : Int)) := rfl
  constructor
  · intro h0
    rw [halu, reg_read_ok ha8, ok_bind, reg_read_ok hb8, ok_bind, if_pos h0]
  · intro hne
    have hmod : s.reg a % s.reg b < 256 :=
      lt_of_lt_of_le (Nat.mod_lt _ (Nat.pos_of_ne_zero hne)) (le_of_lt hy256)
    rw [halu, reg_read_ok ha8, ok_bind, reg_read_ok hb8, ok_bind, if_neg hne,
      reg_write_ok ha8 (by positivity) (by exact_mod_cast hmod)]
    exact ⟨by rw [show ((s.reg a % s.reg b : Nat) : Int).toNat = s.reg a % s.reg b from rfl],
      rfl⟩

/-- C9 witness: on `c3pre` (`R0 = 200`, `R1 = 100`, `R3 = 0`), MOD R0,R1
stores `200 % 100 = 0` and MOD R0,R3 raises `ZeroDivisionError`. -/
theorem C9_witness :
    alu c3pre "MOD" 0 1 =
      .ok { c3pre with reg := Function.update c3pre.reg 0 (200 % 100) } ∧
    alu c3pre "MOD" 0 3 = .error "ZeroDivisionError" :=
  ⟨((C9_mod_semantics c3pre 0 1 200 100 rfl rfl (by decide)).2 (by decide)).1,
    (C9_mod_semantics c3pre 0 3 200 0 rfl rfl (by decide)).1 rfl⟩

/-- Effect of a successful `op_push` on a register other than R7: SP drops
by one and the pushed register's value lands at the new SP. -/
theorem op_push_ok {s : CPUState} {j : Nat} (hj : j < 8) (hj7 : j ≠ 7)
    (h1 : 1 ≤ s.reg 7) (h2 : s.reg 7 ≤ 256) (hv : s.reg j < 256) :
    op_push s j = .ok { s with reg := Function.update s.reg 7 (s.reg 7 - 1),
                               ram := Function.update s.ram (s.reg 7 - 1) (s.reg j) } := by
  have ht : ((s.reg 7 : Int) - 1).toNat = s.reg 7 - 1 := by omega
  unfold op_push
  rw [reg_write_ok (by omega) (by omega) (by omega), ht, ok_bind]
  rw [reg_read_ok hj, ok_bind]
  simp only [Function.update_same, Function.update_noteq hj7]
  rw [ram_write_ok (by omega) (by omega) (by omega) (by omega)]
  simp [Int.toNat_ofNat]

/-- C10, counterexample.  The value pushed for R6 is NOT its pre-interrupt
value: servicing clears bit `i` of IS (R6) before pushing, so from `c1pre`
(`IS = 1`) the R6 slot of the interrupt frame (address `0xEB = 0xF4 - 9`)
holds 0, not 1. -/
theorem C10_counterexample :
    ∃ t, serviceOne c1pre 0 = .ok t ∧ c1pre.reg 6 = 1 ∧ t.ram 0xEB = 0 ∧
      ¬ t.ram 0xEB = c1pre.reg 6 :=
  ⟨_, rfl, rfl, rfl, by decide⟩

set_option maxHeartbeats 4000000 in
/-- C10, amended.  After the vectoring sequence for interrupt `i` completes,
FL is 0 and R0..R6 are 0; the pre-interrupt PC, FL and R0..R5 were pushed
onto the stack, while the R6 slot holds the IS value with bit `i` already
cleared; SP has dropped by 9 and PC holds the vector entry. -/
theorem C10_vectoring_spec (s : CPUState) (i : Nat)
    (hi : i < 8) (hsp9 : 9 ≤ s.reg 7) (hspvec : s.reg 7 ≤ 0xF8)
    (hpc0 : 0 ≤ s.PC) (hpc1 : s.PC < 256) (hfl : s.FL < 256)
    (hregs : ∀ j, j < 7 → s.reg j < 256) :
    ∃ t, serviceOne s i = .ok t ∧
      t.FL = 0 ∧
      (∀ j, j < 7 → t.reg j = 0) ∧
      t.reg 7 = s.reg 7 - 9 ∧
      t.ram (s.reg 7 - 1) = s.PC.toNat ∧
      t.ram (s.reg 7 - 2) = s.FL ∧
      (∀ j, j < 6 → t.ram (s.reg 7 - 3 - j) = s.reg j) ∧
      t.ram (s.reg 7 - 9) = s.reg 6 &&& clearBitMask i ∧
      t.PC = s.ram (0xF8 + i) := by
  have hmask : clearBitMask i ≤ 255 := Nat.sub_le _ _
  have hv6n : s.reg 6 &&& clearBitMask i < 256 :=
    Nat.lt_of_le_of_lt (le_trans Nat.and_le_right hmask) (by norm_num)
  have hv6i : ((s.reg 6 &&& clearBitMask i : Nat) : Int) < 256 := by exact_mod_cast hv6n
  have h0 : s.reg 0 < 256 := hregs 0 (by omega)
  have h1 : s.reg 1 < 256 := hregs 1 (by omega)
  have h2 : s.reg 2 < 256 := hregs 2 (by omega)
  have h3 : s.reg 3 < 256 := hregs 3 (by omega)
  have h4 : s.reg 4 < 256 := hregs 4 (by omega)
  have h5 : s.reg 5 < 256 := hregs 5 (by omega)
  unfold serviceOne
  rw [reg_write_ok (by decide) (Int.ofNat_nonneg _) hv6i, ok_bind]
  simp only [Function.update_apply, reduceIte, Nat.reduceEqDiff, Int.toNat_ofNat, Int.toNat_zero]
  rw [reg_write_ok (by decide)
    (by try simp only [Function.update_apply, reduceIte, Nat.reduceEqDiff]
        omega)
    (by try simp only [Function.update_apply, reduceIte, Nat.reduceEqDiff]
        omega), ok_bind]
  simp only [Function.update_apply, reduceIte, Nat.reduceEqDiff, Int.toNat_ofNat, Int.toNat_zero]
  rw [ram_write_ok
    (by try simp only [Function.update_apply, reduceIte, Nat.reduceEqDiff]
        omega)
    (by try simp only [Function.update_apply, reduceIte, Nat.reduceEqDiff]
        omega)
    (by omega) (by omega), ok_bind]
  simp only [Function.update_apply, reduceIte, Nat.reduceEqDiff, Int.toNat_ofNat, Int.toNat_zero]
  rw [reg_write_ok (by decide)
    (by try simp only [Function.update_apply, reduceIte, Nat.reduceEqDiff]
        omega)
    (by try simp only [Function.update_apply, reduceIte, Nat.reduceEqDiff]
        omega), ok_bind]
  simp only [Function.update_apply, reduceIte, Nat.reduceEqDiff, Int.toNat_ofNat, Int.toNat_zero]
  rw [ram_write_ok
    (by try simp only [Function.update_apply, reduceIte, Nat.reduceEqDiff]
        omega)
    (by try simp only [Function.update_apply, reduceIte, Nat.reduceEqDiff]
        omega)
    (by omega) (by omega), ok_bind]
  simp only [Function.update_apply, reduceIte, Nat.reduceEqDiff, Int.toNat_ofNat, Int.toNat_zero]
  rw [op_push_ok (by decide) (by decide)
    (by try simp only [Function.update_apply, reduceIte, Nat.reduceEqDiff]
        omega)
    (by try simp only [Function.update_apply, reduceIte, Nat.reduceEqDiff]
        omega)
    (by try simp only [Function.update_apply, reduceIte, Nat.reduceEqDiff]
        assumption), ok_bind]
  simp only [Function.update_apply, reduceIte, Nat.reduceEqDiff, Int.toNat_ofNat, Int.toNat_zero]
  rw [reg_write_ok (by decide) (by decide) (by decide), ok_bind]
  simp only [Function.update_apply, reduceIte, Nat.reduceEqDiff, Int.toNat_ofNat, Int.toNat_zero]
  rw [op_push_ok (by decide) (by decide)
    (by try simp only [Function.update_apply, reduceIte, Nat.reduceEqDiff]
        omega)
    (by try simp only [Function.update_apply, reduceIte, Nat.reduceEqDiff]
        omega)
    (by try simp only [Function.update_apply, reduceIte, Nat.reduceEqDiff]
        assumption), ok_bind]
  simp only [Function.update_apply, reduceIte, Nat.reduceEqDiff, Int.toNat_ofNat, Int.toNat_zero]
  rw [reg_write_ok (by decide) (by decide) (by decide), ok_bind]
  simp only [Function.update_apply, reduceIte, Nat.reduceEqDiff, Int.toNat_ofNat, Int.toNat_zero]
  rw [op_push_ok (by decide) (by decide)
    (by try simp only [Function.update_apply, reduceIte, Nat.reduceEqDiff]
        omega)
    (by try simp only [Function.update_apply, reduceIte, Nat.reduceEqDiff]
        omega)
    (by try simp only [Function.update_apply, reduceIte, Nat.reduceEqDiff]
        assumption), ok_bind]
  simp only [Function.update_apply, reduceIte, Nat.reduceEqDiff, Int.toNat_ofNat, Int.toNat_zero]
  rw [reg_write_ok (by decide) (by decide) (by decide), ok_bind]
  simp only [Function.update_apply, reduceIte, Nat.reduceEqDiff, Int.toNat_ofNat, Int.toNat_zero]
  rw [op_push_ok (by decide) (by decide)
    (by try simp only [Function.update_apply, reduceIte, Nat.reduceEqDiff]
        omega)
    (by try simp only [Function.update_apply, reduceIte, Nat.reduceEqDiff]
        omega)
    (by try simp only [Function.update_apply, reduceIte, Nat.reduceEqDiff]
        assumption), ok_bind]
  simp only [Function.update_apply, reduceIte, Nat.reduceEqDiff, Int.toNat_ofNat, Int.toNat_zero]
  rw [reg_write_ok (by decide) (by decide) (by decide), ok_bind]
  simp only [Function.update_apply, reduceIte, Nat.reduceEqDiff, Int.toNat_ofNat, Int.toNat_zero]
  rw [op_push_ok (by decide) (by decide)
    (by try simp only [Function.update_apply, reduceIte, Nat.reduceEqDiff]
        omega)
    (by try simp only [Function.update_apply, reduceIte, Nat.reduceEqDiff]
        omega)
    (by try simp only [Function.update_apply, reduceIte, Nat.reduceEqDiff]
        assumption), ok_bind]
  simp only [Function.update_apply, reduceIte, Nat.reduceEqDiff, Int.toNat_ofNat, Int.toNat_zero]
  rw [reg_write_ok (by decide) (by decide) (by decide), ok_bind]
  simp only [Function.update_apply, reduceIte, Nat.reduceEqDiff, Int.toNat_ofNat, Int.toNat_zero]
  rw [op_push_ok (by decide) (by decide)
    (by try simp only [Function.update_apply, reduceIte, Nat.reduceEqDiff]
        omega)
    (by try simp only [Function.update_apply, reduceIte, Nat.reduceEqDiff]
        omega)
    (by try simp only [Function.update_apply, reduceIte, Nat.reduceEqDiff]
        assumption), ok_bind]
  simp only [Function.update_apply, reduceIte, Nat.reduceEqDiff, Int.toNat_ofNat, Int.toNat_zero]
  rw [reg_write_ok (by decide) (by decide) (by decide), ok_bind]
  simp only [Function.update_apply, reduceIte, Nat.reduceEqDiff, Int.toNat_ofNat, Int.toNat_zero]
  rw [op_push_ok (by decide) (by decide)
    (by try simp only [Function.update_apply, reduceIte, Nat.reduceEqDiff]
        omega)
    (by try simp only [Function.update_apply, reduceIte, Nat.reduceEqDiff]
        omega)
    (by try simp only [Function.update_apply, reduceIte, Nat.reduceEqDiff]
        assumption), ok_bind]
  simp only [Function.update_apply, reduceIte, Nat.reduceEqDiff, Int.toNat_ofNat, Int.toNat_zero]
  rw [reg_write_ok (by decide) (by decide) (by decide), ok_bind]
  simp only [Function.update_apply, reduceIte, Nat.reduceEqDiff, Int.toNat_ofNat, Int.toNat_zero]
  rw [ram_read_ok (Int.ofNat_nonneg _) (by omega), ok_bind]
  simp only [Function.update_apply, Int.toNat_ofNat]
  refine ⟨_, rfl, rfl, ?_, ?_, ?_, ?_, ?_, ?_, ?_⟩
  · intro j hj
    interval_cases j <;>
      simp only [Function.update_apply, reduceIte, Nat.reduceEqDiff]
  · simp only [Function.update_apply, reduceIte, Nat.reduceEqDiff]
    omega
  · simp only [Function.update_apply]
    split_ifs <;> omega
  · simp only [Function.update_apply]
    split_ifs <;> omega
  · intro j hj
    interval_cases j <;>
      (simp only [Function.update_apply]
       split_ifs <;> omega)
  · simp only [Function.update_apply]
    split_ifs <;> first | rfl | omega
  · simp only [Function.update_apply]
    split_ifs <;> omega

/-- C10 witness: the vectoring spec instantiated on the concrete state
`c1pre` with interrupt 0. -/
theorem C10_witness :
    ∃ t, serviceOne c1pre 0 = .ok t ∧
      t.FL = 0 ∧
      (∀ j, j < 7 → t.reg j = 0) ∧
      t.reg 7 = c1pre.reg 7 - 9 ∧
      t.ram (c1pre.reg 7 - 1) = c1pre.PC.toNat ∧
      t.ram (c1pre.reg 7 - 2) = c1pre.FL ∧
      (∀ j, j < 6 → t.ram (c1pre.reg 7 - 3 - j) = c1pre.reg j) ∧
      t.ram (c1pre.reg 7 - 9) = c1pre.reg 6 &&& clearBitMask 0 ∧
      t.PC = c1pre.ram (0xF8 + 0) :=
  C10_vectoring_spec c1pre 0 (by decide) (by decide) (by decide) (by decide) (by decide)
    (by decide) (by decide)

end LS8
